import Mathlib

/-!
Verification of the Action Dispatch & Target Resolution subsystem.

The definitions below are a shallow embedding of the TypeScript sources:
the directory cache (`directory-cache.ts`), the directory-backed target
resolver (`target-resolver.ts`), the action target spec table
(`message-action-spec.ts`) and the message-action runner with its
broadcast coordinator (`message-action-runner.ts`).  External
collaborators (channel plugins, the platform normalizer, dispatch
back-ends, the channel-selection helper) are passed in as function
parameters, exactly at the seams the sources call out to them.
JavaScript strings are modelled by `String`, with the handful of regex
tests written out as explicit character-list predicates.
-/

/-- JavaScript `String.prototype.toLowerCase` restricted to ASCII, as used
by the sources on channel ids, prefixes and queries. -/
def strLower (s : String) : String := ⟨s.data.map Char.toLower⟩

/-- JavaScript `String.prototype.trim`: drop leading and trailing
whitespace. -/
def strTrim (s : String) : String :=
  ⟨((s.data.dropWhile Char.isWhitespace).reverse.dropWhile Char.isWhitespace).reverse⟩

/-- `s.startsWith(p)`. -/
def strStartsWith (s p : String) : Bool := p.data.isPrefixOf s.data

/-- `s.endsWith(p)`. -/
def strEndsWith (s p : String) : Bool := p.data.isSuffixOf s.data

/-- Whether `sub` occurs as a contiguous run inside `l`. -/
def charsContain (sub : List Char) : List Char → Bool
  | [] => sub.isEmpty
  | c :: rest => sub.isPrefixOf (c :: rest) || charsContain sub rest

/-- `s.includes(sub)`. -/
def strContainsSub (s sub : String) : Bool := charsContain sub.data s.data

/-- `s.slice(n)` counted in characters. -/
def strDropN (s : String) (n : Nat) : String := ⟨s.data.drop n⟩

/-- Character count of a string. -/
def strLen (s : String) : Nat := s.data.length

/-- Whether the string contains the given character. -/
def strContainsChar (s : String) (c : Char) : Bool := s.data.contains c

/-- The channel identifiers distinguished by the resolver's per-platform
heuristics (`looksLikeId`); every other channel falls into `other`. -/
inductive ChannelId
  | discord
  | slack
  | msteams
  | telegram
  | whatsapp
  | other (name : String)
deriving DecidableEq

/-- The string form of a channel id, as interpolated into messages and
cache keys. -/
def channelIdStr : ChannelId → String
  | .discord => "discord"
  | .slack => "slack"
  | .msteams => "msteams"
  | .telegram => "telegram"
  | .whatsapp => "whatsapp"
  | .other n => n

/-- `ChannelDirectoryEntryKind` from the plugin types: a directory entry
is either a user or a group. -/
inductive ChannelDirectoryEntryKind
  | user
  | group
deriving DecidableEq

def dirKindStr : ChannelDirectoryEntryKind → String
  | .user => "user"
  | .group => "group"

/-- The `source` dimension of a directory cache key. -/
inductive DirectorySource
  | cache
  | live
deriving DecidableEq

def dirSourceStr : DirectorySource → String
  | .cache => "cache"
  | .live => "live"

/-- `ChannelDirectoryEntry`: one row of a platform directory. -/
structure ChannelDirectoryEntry where
  id : String
  name : Option String
  handle : Option String
  kind : ChannelDirectoryEntryKind
deriving DecidableEq

/-- `ClawdbotConfig` enters the cache only through reference identity
(`lastConfigRef !== cfg`), so it is modelled as an identity token. -/
abbrev ClawdbotConfig := Nat

/-- `CacheEntry<T>` of `directory-cache.ts`: a value plus its fetch
timestamp. -/
structure CacheEntry (T : Type) where
  value : T
  fetchedAt : Nat
deriving DecidableEq

/-- `DirectoryCache<T>` of `directory-cache.ts`.  The backing `Map` is
modelled as a function from key strings to optional entries; `Date.now()`
is made explicit as a `now` argument of `get`/`set`. -/
structure DirectoryCache (T : Type) where
  ttlMs : Nat
  cache : String → Option (CacheEntry T)
  lastConfigRef : Option ClawdbotConfig

/-- `resetIfConfigChanged`: clear everything when the config object is a
different reference from the last one seen, then remember the config. -/
def DirectoryCache.resetIfConfigChanged (c : DirectoryCache T) (cfg : ClawdbotConfig) :
    DirectoryCache T :=
  match c.lastConfigRef with
  | some prev =>
    if prev ≠ cfg then { c with cache := fun _ => none, lastConfigRef := some cfg }
    else { c with lastConfigRef := some cfg }
  | none => { c with lastConfigRef := some cfg }

/-- `DirectoryCache.get`: reset on config change, then look up; an entry
older than `ttlMs` is deleted and reported absent.  Returns the value
together with the updated cache state. -/
def DirectoryCache.get (c : DirectoryCache T) (key : String) (cfg : ClawdbotConfig)
    (now : Nat) : Option T × DirectoryCache T :=
  let c1 := c.resetIfConfigChanged cfg
  match c1.cache key with
  | none => (none, c1)
  | some entry =>
    if c1.ttlMs < now - entry.fetchedAt then
      (none, { c1 with cache := fun k => if k = key then none else c1.cache k })
    else
      (some entry.value, c1)

/-- `DirectoryCache.set`: reset on config change, then store the value
with the current time as its fetch timestamp. -/
def DirectoryCache.set (c : DirectoryCache T) (key : String) (v : T)
    (cfg : ClawdbotConfig) (now : Nat) : DirectoryCache T :=
  let c1 := c.resetIfConfigChanged cfg
  { c1 with cache := fun k => if k = key then some ⟨v, now⟩ else c1.cache k }

/-- `DirectoryCache.clearMatching`. -/
def DirectoryCache.clearMatching (c : DirectoryCache T) (m : String → Bool) :
    DirectoryCache T :=
  { c with cache := fun k => if m k then none else c.cache k }

/-- `DirectoryCache.clear`. -/
def DirectoryCache.clearAll (c : DirectoryCache T) (cfg? : Option ClawdbotConfig) :
    DirectoryCache T :=
  { c with
    cache := fun _ => none
    lastConfigRef := match cfg? with | some cfg => some cfg | none => c.lastConfigRef }

/-- `buildDirectoryCacheKey`: `channel:accountId-or-default:kind:source`. -/
def buildDirectoryCacheKey (channel : ChannelId) (accountId : Option String)
    (kind : ChannelDirectoryEntryKind) (source : DirectorySource) : String :=
  channelIdStr channel ++ ":" ++ accountId.getD "default" ++ ":" ++
    dirKindStr kind ++ ":" ++ dirSourceStr source

/-- `CACHE_TTL_MS = 30 * 60 * 1000` from `target-resolver.ts`. -/
def CACHE_TTL_MS : Nat := 30 * 60 * 1000

/-- The module-level resolver cache, `new DirectoryCache(CACHE_TTL_MS)`:
initially empty with no config seen. -/
def directoryCache : DirectoryCache (List ChannelDirectoryEntry) :=
  ⟨CACHE_TTL_MS, fun _ => none, none⟩

/-- `TargetResolveKind = ChannelDirectoryEntryKind | "channel"`. -/
inductive TargetResolveKind
  | user
  | group
  | channel
deriving DecidableEq

/-- Provenance of a resolved target. -/
inductive TargetSource
  | normalized
  | directory
deriving DecidableEq

/-- `ResolvedMessagingTarget`. -/
structure ResolvedMessagingTarget where
  «to» : String
  kind : TargetResolveKind
  display : Option String
  source : TargetSource
deriving DecidableEq

/-- `ResolveMessagingTargetResult`: success with a target, or failure
with an error message and (for ambiguity) the candidate list. -/
inductive ResolveMessagingTargetResult
  | ok (target : ResolvedMessagingTarget)
  | fail (error : String) (candidates : Option (List ChannelDirectoryEntry))
deriving DecidableEq

/-- The platform syntax normalizer `normalizeTargetForProvider`, an
external collaborator: `none` models a platform without a normalizer
(the caller falls back to the raw string). -/
abbrev NormalizeProvider := ChannelId → String → Option String

/-- Modelled from the spec: `normalizeChannelTargetInput`
(`channel-target.ts`, not among the sources) — "Normalize whitespace in
`rawInput`"; an input that is empty after normalization is rejected. -/
def normalizeChannelTargetInput (input : String) : String := strTrim input

/-- `normalizeQuery`: trim then lower-case. -/
def normalizeQuery (value : String) : String := strLower (strTrim value)

/-- Case-insensitive prefix strip: if the lower-cased string starts with
`p` (itself lower-case), drop that many characters of the original. -/
def stripLeadingTag (p s : String) : Option String :=
  if strStartsWith (strLower s) p then some (strDropN s (strLen p)) else none

/-- `stripTargetPrefixes`: drop one leading `channel:`/`group:`/`user:`
tag (case-insensitively), then one leading `@` or `#`, then trim. -/
def stripTargetPrefixes (value : String) : String :=
  let s1 :=
    match stripLeadingTag "channel:" value with
    | some r => r
    | none =>
      match stripLeadingTag "group:" value with
      | some r => r
      | none =>
        match stripLeadingTag "user:" value with
        | some r => r
        | none => value
  let s2 := if strStartsWith s1 "@" || strStartsWith s1 "#" then strDropN s1 1 else s1
  strTrim s2

/-- `preserveTargetCase`: on slack, keep explicit `channel:`/`user:`
prefixes and rewrite `#`/`@` shorthand into those prefixes; every other
channel uses the normalized form verbatim. -/
def preserveTargetCase (channel : ChannelId) (raw normalized : String) : String :=
  if channel ≠ ChannelId.slack then normalized
  else
    let trimmed := strTrim raw
    if (stripLeadingTag "channel:" trimmed).isSome ∨ (stripLeadingTag "user:" trimmed).isSome then
      trimmed
    else if strStartsWith trimmed "#" then "channel:" ++ strTrim (strDropN trimmed 1)
    else if strStartsWith trimmed "@" then "user:" ++ strTrim (strDropN trimmed 1)
    else trimmed

/-- `detectTargetKind`: the preferred kind if supplied, else classify by
syntax (`@`, mention token or `user:` means user; everything else group). -/
def detectTargetKind (raw : String) (preferred : Option TargetResolveKind) :
    TargetResolveKind :=
  match preferred with
  | some k => k
  | none =>
    let trimmed := strTrim raw
    if trimmed = "" then .group
    else if strStartsWith trimmed "@" ∨ strStartsWith trimmed "<@" ∨
        (stripLeadingTag "user:" trimmed).isSome then .user
    else if strStartsWith trimmed "#" ∨ (stripLeadingTag "channel:" trimmed).isSome ∨
        (stripLeadingTag "group:" trimmed).isSome then .group
    else .group

/-- `normalizeDirectoryEntryId`: platform-normalize an entry id, falling
back to the trimmed id. -/
def normalizeDirectoryEntryId (np : NormalizeProvider) (channel : ChannelId)
    (entry : ChannelDirectoryEntry) : String :=
  match np channel entry.id with
  | some v => v
  | none => strTrim entry.id

/-- `matchesDirectoryEntry`: strip prefixes from id, name and handle,
lower-case, drop empties, and test exact equality or substring
containment against the normalized query. -/
def matchesDirectoryEntry (np : NormalizeProvider) (channel : ChannelId)
    (entry : ChannelDirectoryEntry) (queryRaw : String) : Bool :=
  let query := normalizeQuery queryRaw
  if query = "" then false
  else
    let id := stripTargetPrefixes (normalizeDirectoryEntryId np channel entry)
    let name := match entry.name with | some n => stripTargetPrefixes n | none => ""
    let handle := match entry.handle with | some h => stripTargetPrefixes h | none => ""
    let candidates := ([id, name, handle].map normalizeQuery).filter (fun v => v ≠ "")
    candidates.any (fun v => v = query || strContainsSub v query)

/-- Result of `resolveMatch`. -/
inductive MatchResult
  | noneFound
  | single (entry : ChannelDirectoryEntry)
  | ambiguous (entries : List ChannelDirectoryEntry)
deriving DecidableEq

/-- `resolveMatch`: filter the entries by `matchesDirectoryEntry` and
classify by the number of matches. -/
def resolveMatch (np : NormalizeProvider) (channel : ChannelId)
    (entries : List ChannelDirectoryEntry) (query : String) : MatchResult :=
  let ms := entries.filter (fun e => matchesDirectoryEntry np channel e query)
  match ms with
  | [] => .noneFound
  | [e] => .single e
  | es => .ambiguous es

/-- `looksLikeId`: the per-platform "spelled like a native identifier"
test. -/
def looksLikeId (channel : ChannelId) (normalized : String) : Bool :=
  if normalized = "" then false
  else
    let raw := strTrim normalized
    match channel with
    | .discord =>
      let c := stripTargetPrefixes raw
      decide (6 ≤ strLen c) && c.data.all Char.isDigit
    | .slack =>
      let c := stripTargetPrefixes raw
      decide (8 ≤ strLen c) && c.data.all Char.isAlphanum
    | .msteams =>
      strStartsWith (strLower raw) "conversation:" || strStartsWith (strLower raw) "user:" ||
        strContainsSub raw "@thread"
    | .telegram =>
      strStartsWith (strLower raw) "telegram:" || strStartsWith raw "@"
    | .whatsapp =>
      let c := stripTargetPrefixes raw
      strContainsChar c '@' ||
        (let t := if strStartsWith c "+" then strDropN c 1 else c
         decide (3 ≤ strLen t) && t.data.all Char.isDigit) ||
        strEndsWith (strLower c) "@g.us"
    | .other _ => decide (raw ≠ "")

/-- Output of `getDirectoryEntries`: the entries used, the cache state
afterwards, and how many cache-source / live-source collaborator
fetches were performed. -/
structure DirFetchOut where
  entries : List ChannelDirectoryEntry
  cache : DirectoryCache (List ChannelDirectoryEntry)
  cacheFetches : Nat
  liveFetches : Nat

/-- `getDirectoryEntries`: cache-read first; on a miss fetch fresh
entries and cache them under the `cache` source key, except that a
zero-entry fetch with `preferLiveOnMiss` escalates once to the live
variant, whose result is cached under the `live` source key instead.
The directory collaborator (`listDirectoryEntries`, with the
channel/account/kind/query routing fixed for this lookup) is the
`fetch` parameter. -/
def getDirectoryEntries (fetch : DirectorySource → List ChannelDirectoryEntry)
    (cfg : ClawdbotConfig) (channel : ChannelId) (accountId : Option String)
    (kind : ChannelDirectoryEntryKind) (preferLiveOnMiss : Bool)
    (c : DirectoryCache (List ChannelDirectoryEntry)) (now : Nat) : DirFetchOut :=
  let cacheKey := buildDirectoryCacheKey channel accountId kind .cache
  let r := c.get cacheKey cfg now
  match r.1 with
  | some cached => ⟨cached, r.2, 0, 0⟩
  | none =>
    let entries := fetch .cache
    if 0 < entries.length ∨ preferLiveOnMiss = false then
      ⟨entries, r.2.set cacheKey entries cfg now, 1, 0⟩
    else
      let liveKey := buildDirectoryCacheKey channel accountId kind .live
      let liveEntries := fetch .live
      ⟨liveEntries, r.2.set liveKey liveEntries cfg now, 1, 1⟩

/-- Output of `resolveMessagingTarget`: the result plus the cache state
and fetch counters threaded out of `getDirectoryEntries`. -/
structure ResolveOut where
  result : ResolveMessagingTargetResult
  cache : DirectoryCache (List ChannelDirectoryEntry)
  cacheFetches : Nat
  liveFetches : Nat

/-- `resolveMessagingTarget`: normalize the input, classify its kind,
short-circuit on identifier-shaped input, otherwise search the
directory (through the cache) and classify the matches. -/
def resolveMessagingTarget (np : NormalizeProvider)
    (fetch : DirectorySource → List ChannelDirectoryEntry) (cfg : ClawdbotConfig)
    (channel : ChannelId) (input : String) (accountId : Option String)
    (preferredKind : Option TargetResolveKind)
    (c : DirectoryCache (List ChannelDirectoryEntry)) (now : Nat) : ResolveOut :=
  let raw := normalizeChannelTargetInput input
  if raw = "" then ⟨.fail "Target is required" none, c, 0, 0⟩
  else
    let kind := detectTargetKind raw preferredKind
    let normalized := (np channel raw).getD raw
    if looksLikeId channel normalized then
      ⟨.ok ⟨preserveTargetCase channel raw normalized, kind,
          some (stripTargetPrefixes raw), .normalized⟩, c, 0, 0⟩
    else
      let query := stripTargetPrefixes raw
      let dirKind : ChannelDirectoryEntryKind :=
        if kind = .user then .user else .group
      let out := getDirectoryEntries fetch cfg channel accountId dirKind true c now
      match resolveMatch np channel out.entries query with
      | .single entry =>
        ⟨.ok ⟨normalizeDirectoryEntryId np channel entry, kind,
            some (entry.name.getD (entry.handle.getD (stripTargetPrefixes entry.id))),
            .directory⟩, out.cache, out.cacheFetches, out.liveFetches⟩
      | .ambiguous es =>
        ⟨.fail ("Ambiguous target \"" ++ raw ++ "\". Provide a unique name or an explicit id.")
            (some es), out.cache, out.cacheFetches, out.liveFetches⟩
      | .noneFound =>
        ⟨.fail ("Unknown target \"" ++ raw ++ "\" for " ++ channelIdStr channel ++ ".")
            none, out.cache, out.cacheFetches, out.liveFetches⟩

/-- `ChannelMessageActionName`: the closed enumeration of supported
actions, exactly the keys of `MESSAGE_ACTION_TARGET_MODE`. -/
inductive ChannelMessageActionName
  | send
  | broadcast
  | poll
  | react
  | reactions
  | readAction
  | edit
  | deleteAction
  | pin
  | unpin
  | listPins
  | permissions
  | threadCreate
  | threadList
  | threadReply
  | search
  | sticker
  | memberInfo
  | roleInfo
  | emojiList
  | emojiUpload
  | stickerUpload
  | roleAdd
  | roleRemove
  | channelInfo
  | channelList
  | channelCreate
  | channelEdit
  | channelDelete
  | channelMove
  | categoryCreate
  | categoryEdit
  | categoryDelete
  | voiceStatus
  | eventList
  | eventCreate
  | timeout
  | kick
  | ban
deriving DecidableEq

/-- The TypeScript string name of an action, as interpolated into error
messages. -/
def actionNameStr : ChannelMessageActionName → String
  | .send => "send"
  | .broadcast => "broadcast"
  | .poll => "poll"
  | .react => "react"
  | .reactions => "reactions"
  | .readAction => "read"
  | .edit => "edit"
  | .deleteAction => "delete"
  | .pin => "pin"
  | .unpin => "unpin"
  | .listPins => "list-pins"
  | .permissions => "permissions"
  | .threadCreate => "thread-create"
  | .threadList => "thread-list"
  | .threadReply => "thread-reply"
  | .search => "search"
  | .sticker => "sticker"
  | .memberInfo => "member-info"
  | .roleInfo => "role-info"
  | .emojiList => "emoji-list"
  | .emojiUpload => "emoji-upload"
  | .stickerUpload => "sticker-upload"
  | .roleAdd => "role-add"
  | .roleRemove => "role-remove"
  | .channelInfo => "channel-info"
  | .channelList => "channel-list"
  | .channelCreate => "channel-create"
  | .channelEdit => "channel-edit"
  | .channelDelete => "channel-delete"
  | .channelMove => "channel-move"
  | .categoryCreate => "category-create"
  | .categoryEdit => "category-edit"
  | .categoryDelete => "category-delete"
  | .voiceStatus => "voice-status"
  | .eventList => "event-list"
  | .eventCreate => "event-create"
  | .timeout => "timeout"
  | .kick => "kick"
  | .ban => "ban"

/-- `MessageActionTargetMode`: what kind of target an action requires. -/
inductive MessageActionTargetMode
  | «to»
  | channelId
  | noTarget
deriving DecidableEq

/-- The `MESSAGE_ACTION_TARGET_MODE` record, transcribed entry by entry
in source order (`noTarget` stands for the string `"none"`). -/
def MESSAGE_ACTION_TARGET_MODE :
    List (ChannelMessageActionName × MessageActionTargetMode) :=
  [ (.send, .to)
  , (.broadcast, .noTarget)
  , (.poll, .to)
  , (.react, .to)
  , (.reactions, .to)
  , (.readAction, .to)
  , (.edit, .to)
  , (.deleteAction, .to)
  , (.pin, .to)
  , (.unpin, .to)
  , (.listPins, .to)
  , (.permissions, .to)
  , (.threadCreate, .to)
  , (.threadList, .noTarget)
  , (.threadReply, .to)
  , (.search, .noTarget)
  , (.sticker, .to)
  , (.memberInfo, .noTarget)
  , (.roleInfo, .noTarget)
  , (.emojiList, .noTarget)
  , (.emojiUpload, .noTarget)
  , (.stickerUpload, .noTarget)
  , (.roleAdd, .noTarget)
  , (.roleRemove, .noTarget)
  , (.channelInfo, .channelId)
  , (.channelList, .noTarget)
  , (.channelCreate, .noTarget)
  , (.channelEdit, .channelId)
  , (.channelDelete, .channelId)
  , (.channelMove, .channelId)
  , (.categoryCreate, .noTarget)
  , (.categoryEdit, .noTarget)
  , (.categoryDelete, .noTarget)
  , (.voiceStatus, .noTarget)
  , (.eventList, .noTarget)
  , (.eventCreate, .noTarget)
  , (.timeout, .noTarget)
  , (.kick, .noTarget)
  , (.ban, .noTarget) ]

/-- `actionRequiresTarget`: `MESSAGE_ACTION_TARGET_MODE[action] !== "none"`
(a hypothetical missing key would compare unequal to `"none"` as well,
matching the TypeScript record access). -/
def actionRequiresTarget (action : ChannelMessageActionName) : Bool :=
  decide (MESSAGE_ACTION_TARGET_MODE.lookup action ≠ some MessageActionTargetMode.noTarget)

/-- A loosely-typed parameter value: a string, or anything that is not a
string (whose structure the validation code never inspects). -/
inductive ParamValue
  | str (s : String)
  | nonString
deriving DecidableEq

/-- The parameter fields of the working parameter map that the validation
prefix of `runMessageAction` reads or writes. -/
structure ActionParams where
  buttons : Option ParamValue
  target : Option ParamValue
  «to» : Option ParamValue
  channelId : Option ParamValue
deriving DecidableEq

/-- `parseButtonsParam`: a string `buttons` parameter is parsed as JSON
(`jsonOk` is the `JSON.parse` success oracle); whitespace removes the
key and malformed data is a hard validation failure.  Non-string values
pass through untouched. -/
def parseButtonsParam (jsonOk : String → Bool) (p : ActionParams) :
    Except String ActionParams :=
  match p.buttons with
  | some (.str s) =>
    if strTrim s = "" then .ok { p with buttons := none }
    else if jsonOk s then .ok { p with buttons := some .nonString }
    else .error "--buttons must be valid JSON"
  | _ => .ok p

/-- Modelled from the spec: `applyTargetToParams` (`channel-target.ts`,
not among the sources) — "Map any generic `target` parameter onto the
action's concrete key (`to` or `channelId`) per action semantics". -/
def applyTargetToParams (action : ChannelMessageActionName) (p : ActionParams) :
    ActionParams :=
  match p.target with
  | some (.str s) =>
    match MESSAGE_ACTION_TARGET_MODE.lookup action with
    | some .to => { p with «to» := some (.str s), target := none }
    | some .channelId => { p with channelId := some (.str s), target := none }
    | _ => p
  | _ => p

/-- Whether a parameter is present as a string with non-blank content —
`typeof v === "string" && v.trim()`. -/
def isNonEmptyStringParam : Option ParamValue → Bool
  | some (.str s) => decide (strTrim s ≠ "")
  | _ => false

/-- The target-presence test of `runMessageAction`: either `to` or
`channelId` is present as a non-empty string. -/
def hasTargetParam (p : ActionParams) : Bool :=
  isNonEmptyStringParam p.to || isNonEmptyStringParam p.channelId

/-- The validation prefix of `runMessageAction` (up to and including the
target-requirement check): copy of the params is implicit, `buttons`
parsing first, broadcast delegates before any target handling, then the
generic `target` mapping and the Action Target Spec consultation. -/
def runMessageActionChecks (jsonOk : String → Bool)
    (action : ChannelMessageActionName) (p : ActionParams) :
    Except String ActionParams :=
  match parseButtonsParam jsonOk p with
  | .error e => .error e
  | .ok p1 =>
    if action = .broadcast then .ok p1
    else
      let p2 := applyTargetToParams action p1
      if actionRequiresTarget action ∧ hasTargetParam p2 = false then
        .error ("Action " ++ actionNameStr action ++ " requires a target.")
      else .ok p2

/-- `handledBy` of a broadcast result. -/
inductive BroadcastHandledBy
  | core
  | dryRun
deriving DecidableEq

/-- One element of the broadcast `results` payload
(`{channel, to, ok, error?, result?}`), with the opaque
`MessageSendResult` as a type parameter. -/
structure BroadcastOutcome (ρ : Type) where
  channel : ChannelId
  «to» : String
  ok : Bool
  error : Option String
  result : Option ρ
deriving DecidableEq

/-- The broadcast `ActionResult`. -/
structure BroadcastResult (ρ : Type) where
  channel : ChannelId
  handledBy : BroadcastHandledBy
  results : List (BroadcastOutcome ρ)
  dryRun : Bool
deriving DecidableEq

/-- The body of the broadcast loop for one `(channel, rawTarget)` pair:
resolve the raw target (`resolveT` stands for `resolveChannelTarget`,
returning the canonical `to` or an error message), then recursively
send (`sendRec` stands for the recursive `runMessageAction` with
`action = "send"`, returning the optional `sendResult`); any failure is
caught and recorded with the raw target as destination. -/
def broadcastPair (resolveT : ChannelId → String → Except String String)
    (sendRec : ChannelId → String → Except String (Option ρ))
    (channel : ChannelId) (target : String) : BroadcastOutcome ρ :=
  match resolveT channel target with
  | .error e => ⟨channel, target, false, some e, none⟩
  | .ok dest =>
    match sendRec channel dest with
    | .error e => ⟨channel, target, false, some e, none⟩
    | .ok r => ⟨channel, dest, true, none, r⟩

/-- The inputs of `handleBroadcastAction` after parameter extraction:
the feature gate, the `targets` parameter (absent = `none`, mirroring
the `required` extraction), the `channel` hint, the configured channel
list from the channel-selection collaborator, and the dry-run flag. -/
structure BroadcastInput where
  broadcastEnabled : Bool
  targets : Option (List String)
  channelHint : Option String
  configured : List ChannelId
  dryRun : Bool

/-- The target channel set of a broadcast: an explicit hint other than
`"all"` resolves exactly that one channel through the channel-selection
collaborator `resolveSel`; otherwise every configured channel. -/
def broadcastTargetChannels (resolveSel : String → Except String ChannelId)
    (channelHint : Option String) (configured : List ChannelId) :
    Except String (List ChannelId) :=
  match channelHint with
  | some h =>
    if strLower (strTrim h) ≠ "all" then
      match resolveSel h with
      | .error e => .error e
      | .ok ch => .ok [ch]
    else .ok configured
  | none => .ok configured

/-- `handleBroadcastAction`: precondition checks, target channel set,
then the nested `for` loops pushing one outcome per
`(channel, rawTarget)` pair onto the result array. -/
def handleBroadcastAction (resolveSel : String → Except String ChannelId)
    (resolveT : ChannelId → String → Except String String)
    (sendRec : ChannelId → String → Except String (Option ρ))
    (inp : BroadcastInput) : Except String (BroadcastResult ρ) :=
  if inp.broadcastEnabled = false then
    .error "Broadcast is disabled. Set tools.message.broadcast.enabled to true."
  else
    match inp.targets with
    | none => .error "targets required"
    | some rawTargets =>
      if rawTargets.length = 0 then
        .error "Broadcast requires at least one target in --targets."
      else if inp.configured.length = 0 then
        .error "Broadcast requires at least one configured channel."
      else
        match broadcastTargetChannels resolveSel inp.channelHint inp.configured with
        | .error e => .error e
        | .ok targetChannels =>
          let results := targetChannels.foldl
            (fun acc ch => rawTargets.foldl
              (fun acc2 t => acc2 ++ [broadcastPair resolveT sendRec ch t]) acc) []
          .ok ⟨targetChannels.headD .discord,
            if inp.dryRun then .dryRun else .core, results, inp.dryRun⟩

/-- The options of `readStringParam` as used by the send/poll handlers. -/
structure ReadStringOpts where
  required : Bool
  allowEmpty : Bool
  trimValue : Bool

/-- Modelled from the spec: `readStringParam` (`agents/tools/common.ts`,
not among the sources) — read an optional string parameter, trimming
unless `trim: false`; a blank value counts as absent unless
`allowEmpty`; a `required` parameter that is absent fails with
"<key> required" (the smoke test expects `/message required/i`). -/
def readStringParam (v : Option ParamValue) (key : String) (opts : ReadStringOpts) :
    Except String (Option String) :=
  match v with
  | some (.str s) =>
    let s1 := if opts.trimValue then strTrim s else s
    if s1 = "" ∧ opts.allowEmpty = false then
      if opts.required then .error (key ++ " required") else .ok none
    else .ok (some s1)
  | _ => if opts.required then .error (key ++ " required") else .ok none

/-- The result of `parseReplyDirectives`, an external collaborator:
rewritten text, an optional reply-to id and media URL hints. -/
structure ReplyDirectives where
  text : String
  replyToId : Option String
  mediaUrls : List String
  mediaUrl : Option String

/-- JavaScript `a || b` on optional strings: the first operand that is
present and non-empty (a present empty string is falsy). -/
def firstTruthy (a b : Option String) : Option String :=
  if a.getD "" ≠ "" then a else if b.getD "" ≠ "" then b else none

/-- The parameter fields of the working map read by the send handler. -/
structure SendParams where
  «to» : Option ParamValue
  media : Option ParamValue
  message : Option ParamValue
deriving DecidableEq

/-- The validated payload handed to `executeSendAction`. -/
structure SendRequest where
  «to» : String
  message : String
  mediaUrl : Option String
deriving DecidableEq

/-- The validation-and-preparation prefix of `handleSendAction` (lines
before the `executeSendAction` call, none of which consult the dry-run
flag): read `to` (required), the `media` hint (untrimmed), `message`
(required exactly when there is no media hint, empty allowed), apply
the reply-directive extraction `prd` and the optional cross-context
decoration `deco`. -/
def validateSendAction (prd : String → ReplyDirectives)
    (deco : Option (String → String)) (p : SendParams) : Except String SendRequest :=
  match readStringParam p.to "to" ⟨true, false, true⟩ with
  | .error e => .error e
  | .ok to? =>
    match readStringParam p.media "media" ⟨false, false, false⟩ with
    | .error e => .error e
    | .ok mediaHint =>
      match readStringParam p.message "message" ⟨mediaHint.isNone, true, true⟩ with
      | .error e => .error e
      | .ok message? =>
        let parsed := prd (message?.getD "")
        let message1 := parsed.text
        let media1 :=
          match mediaHint with
          | some m => some m
          | none => firstTruthy parsed.mediaUrls.head? parsed.mediaUrl
        let message2 := match deco with | some d => d message1 | none => message1
        .ok ⟨to?.getD "", message2, media1⟩

/-- Modelled from the spec: `executeSendAction`
(`outbound-send-service.ts`, not among the sources) — the dry-run flag
"must still flow through full validation ... and only skip the final
network dispatch": under dry-run the dispatch collaborator is not
invoked and a synthesized result is returned; otherwise the dispatch
collaborator runs.  The second component counts dispatch invocations. -/
def executeSendAction (dispatch : SendRequest → Except String ρ) (dryResult : ρ)
    (dryRun : Bool) (req : SendRequest) : Except String ρ × Nat :=
  if dryRun then (.ok dryResult, 0) else (dispatch req, 1)

/-- `handleSendAction` as validation followed by execution; returns the
outcome together with the number of dispatch-collaborator invocations. -/
def handleSendAction (prd : String → ReplyDirectives)
    (deco : Option (String → String)) (dispatch : SendRequest → Except String ρ)
    (dryResult : ρ) (p : SendParams) (dryRun : Bool) : Except String ρ × Nat :=
  match validateSendAction prd deco p with
  | .error e => (.error e, 0)
  | .ok req => executeSendAction dispatch dryResult dryRun req

/-- `handledBy` of a generic plugin action result. -/
inductive PluginHandledBy
  | plugin
  | dryRun
deriving DecidableEq

/-- The payload of a generic plugin action result: the synthesized
`{ ok: true, dryRun: true, channel, action }` object, or the payload
extracted from the plugin tool result. -/
inductive PluginPayload (ρ : Type)
  | synthesized (channel : ChannelId) (action : ChannelMessageActionName)
  | fromTool (result : ρ)
deriving DecidableEq

/-- A generic plugin action outcome. -/
structure PluginOutcome (ρ : Type) where
  handledBy : PluginHandledBy
  payload : PluginPayload ρ
deriving DecidableEq

/-- `handlePluginAction`: under dry-run, synthesize a success without
any dispatch; otherwise invoke `dispatchChannelMessageAction` (the
`dispatcher` oracle, `none` meaning "unhandled for this channel").
The second component counts dispatcher invocations. -/
def handlePluginAction (dispatcher : Unit → Option ρ) (channel : ChannelId)
    (action : ChannelMessageActionName) (dryRun : Bool) :
    Except String (PluginOutcome ρ) × Nat :=
  if dryRun then (.ok ⟨.dryRun, .synthesized channel action⟩, 0)
  else
    match dispatcher () with
    | none =>
      (.error ("Message action " ++ actionNameStr action ++ " not supported for channel " ++
        channelIdStr channel ++ "."), 1)
    | some r => (.ok ⟨.plugin, .fromTool r⟩, 1)

theorem resolveMatch_eq_ambiguous (np : NormalizeProvider) (channel : ChannelId)
    (entries : List ChannelDirectoryEntry) (query : String)
    (h : 2 ≤ (entries.filter (fun e => matchesDirectoryEntry np channel e query)).length) :
    resolveMatch np channel entries query =
      .ambiguous (entries.filter (fun e => matchesDirectoryEntry np channel e query)) := by
  unfold resolveMatch
  cases hm : entries.filter (fun e => matchesDirectoryEntry np channel e query) with
  | nil => rw [hm] at h; simp at h
  | cons a t =>
    cases t with
    | nil => rw [hm] at h; simp at h
    | cons b t2 => simp

/-- C1: when more than one directory entry matches the query (after
prefix-stripping and lower-casing, by exact equality or substring
containment), `resolveMessagingTarget` returns a failure carrying the
full matching-candidate list in directory order, never a success. -/
theorem resolve_ambiguous_returns_all_candidates (np : NormalizeProvider)
    (fetch : DirectorySource → List ChannelDirectoryEntry) (cfg : ClawdbotConfig)
    (channel : ChannelId) (input : String) (accountId : Option String)
    (preferredKind : Option TargetResolveKind)
    (c : DirectoryCache (List ChannelDirectoryEntry)) (now : Nat)
    (hraw : normalizeChannelTargetInput input ≠ "")
    (hid : looksLikeId channel ((np channel (normalizeChannelTargetInput input)).getD
      (normalizeChannelTargetInput input)) = false)
    (hamb : 2 ≤ ((getDirectoryEntries fetch cfg channel accountId
        (if detectTargetKind (normalizeChannelTargetInput input) preferredKind =
            TargetResolveKind.user then .user else .group)
        true c now).entries.filter
        (fun e => matchesDirectoryEntry np channel e
          (stripTargetPrefixes (normalizeChannelTargetInput input)))).length) :
    (resolveMessagingTarget np fetch cfg channel input accountId preferredKind c now).result =
      .fail ("Ambiguous target \"" ++ normalizeChannelTargetInput input ++
          "\". Provide a unique name or an explicit id.")
        (some ((getDirectoryEntries fetch cfg channel accountId
          (if detectTargetKind (normalizeChannelTargetInput input) preferredKind =
              TargetResolveKind.user then .user else .group)
          true c now).entries.filter
          (fun e => matchesDirectoryEntry np channel e
            (stripTargetPrefixes (normalizeChannelTargetInput input))))) := by
  simp only [resolveMessagingTarget]
  rw [if_neg hraw, if_neg (by simp [hid]),
    resolveMatch_eq_ambiguous np channel _ _ hamb]

/-- C4: input whose normalized form passes the channel identifier
heuristic resolves immediately with `normalized` provenance, leaving
the cache untouched and performing no directory fetch of either
source. -/
theorem resolve_id_shortcircuits_directory (np : NormalizeProvider)
    (fetch : DirectorySource → List ChannelDirectoryEntry) (cfg : ClawdbotConfig)
    (channel : ChannelId) (input : String) (accountId : Option String)
    (preferredKind : Option TargetResolveKind)
    (c : DirectoryCache (List ChannelDirectoryEntry)) (now : Nat)
    (hraw : normalizeChannelTargetInput input ≠ "")
    (hid : looksLikeId channel ((np channel (normalizeChannelTargetInput input)).getD
      (normalizeChannelTargetInput input)) = true) :
    resolveMessagingTarget np fetch cfg channel input accountId preferredKind c now =
      ⟨.ok ⟨preserveTargetCase channel (normalizeChannelTargetInput input)
          ((np channel (normalizeChannelTargetInput input)).getD
            (normalizeChannelTargetInput input)),
        detectTargetKind (normalizeChannelTargetInput input) preferredKind,
        some (stripTargetPrefixes (normalizeChannelTargetInput input)),
        .normalized⟩, c, 0, 0⟩ := by
  simp only [resolveMessagingTarget]
  rw [if_neg hraw, if_pos hid]

/-- A platform without a syntax normalizer: every channel falls back to
the raw string. -/
def noNormalizer : NormalizeProvider := fun _ _ => none

def entryGeneralOne : ChannelDirectoryEntry := ⟨"111", some "general-1", none, .group⟩

def entryGeneralTwo : ChannelDirectoryEntry := ⟨"222", some "general-2", none, .group⟩

/-- A directory collaborator returning two entries whose names both
contain "gen". -/
def fetchTwoGenerals : DirectorySource → List ChannelDirectoryEntry :=
  fun _ => [entryGeneralOne, entryGeneralTwo]

/-- A directory collaborator returning no entries for either source. -/
def fetchNothing : DirectorySource → List ChannelDirectoryEntry := fun _ => []

theorem resolve_ambiguous_returns_all_candidates_witness :
    normalizeChannelTargetInput "gen" ≠ "" ∧
    looksLikeId .discord ((noNormalizer .discord (normalizeChannelTargetInput "gen")).getD
      (normalizeChannelTargetInput "gen")) = false ∧
    2 ≤ ((getDirectoryEntries fetchTwoGenerals 0 .discord none
        (if detectTargetKind (normalizeChannelTargetInput "gen") none =
            TargetResolveKind.user then .user else .group)
        true directoryCache 0).entries.filter
        (fun e => matchesDirectoryEntry noNormalizer .discord e
          (stripTargetPrefixes (normalizeChannelTargetInput "gen")))).length ∧
    (resolveMessagingTarget noNormalizer fetchTwoGenerals 0 .discord "gen" none none
        directoryCache 0).result =
      .fail ("Ambiguous target \"" ++ normalizeChannelTargetInput "gen" ++
          "\". Provide a unique name or an explicit id.")
        (some ((getDirectoryEntries fetchTwoGenerals 0 .discord none
          (if detectTargetKind (normalizeChannelTargetInput "gen") none =
              TargetResolveKind.user then .user else .group)
          true directoryCache 0).entries.filter
          (fun e => matchesDirectoryEntry noNormalizer .discord e
            (stripTargetPrefixes (normalizeChannelTargetInput "gen"))))) :=
  ⟨by decide, by decide, by decide,
    resolve_ambiguous_returns_all_candidates noNormalizer fetchTwoGenerals 0 .discord
      "gen" none none directoryCache 0 (by decide) (by decide) (by decide)⟩

theorem resolve_id_shortcircuits_directory_witness :
    normalizeChannelTargetInput "123456789" ≠ "" ∧
    looksLikeId .discord
      ((noNormalizer .discord (normalizeChannelTargetInput "123456789")).getD
        (normalizeChannelTargetInput "123456789")) = true ∧
    resolveMessagingTarget noNormalizer fetchTwoGenerals 0 .discord "123456789" none none
        directoryCache 0 =
      ⟨.ok ⟨preserveTargetCase .discord (normalizeChannelTargetInput "123456789")
          ((noNormalizer .discord (normalizeChannelTargetInput "123456789")).getD
            (normalizeChannelTargetInput "123456789")),
        detectTargetKind (normalizeChannelTargetInput "123456789") none,
        some (stripTargetPrefixes (normalizeChannelTargetInput "123456789")),
        .normalized⟩, directoryCache, 0, 0⟩ :=
  ⟨by decide, by decide,
    resolve_id_shortcircuits_directory noNormalizer fetchTwoGenerals 0 .discord
      "123456789" none none directoryCache 0 (by decide) (by decide)⟩

theorem resetIfConfigChanged_same (c : DirectoryCache V) (cfg : ClawdbotConfig)
    (h : c.lastConfigRef = some cfg) : c.resetIfConfigChanged cfg = c := by
  cases c
  unfold DirectoryCache.resetIfConfigChanged
  simp_all

theorem set_lastConfigRef (c : DirectoryCache V) (key : String) (v : V)
    (cfg : ClawdbotConfig) (now : Nat) :
    (c.set key v cfg now).lastConfigRef = some cfg := by
  unfold DirectoryCache.set DirectoryCache.resetIfConfigChanged
  cases h : c.lastConfigRef <;> simp
  split <;> simp

theorem set_cache_self (c : DirectoryCache V) (key : String) (v : V)
    (cfg : ClawdbotConfig) (now : Nat) :
    (c.set key v cfg now).cache key = some ⟨v, now⟩ := by
  unfold DirectoryCache.set
  simp

theorem set_ttlMs (c : DirectoryCache V) (key : String) (v : V)
    (cfg : ClawdbotConfig) (now : Nat) : (c.set key v cfg now).ttlMs = c.ttlMs := by
  unfold DirectoryCache.set DirectoryCache.resetIfConfigChanged
  cases h : c.lastConfigRef <;> simp
  split <;> simp

theorem get_fst_of_entry (c : DirectoryCache V) (key : String) (cfg : ClawdbotConfig)
    (t : Nat) (w : V) (ts : Nat) (h1 : c.lastConfigRef = some cfg)
    (h2 : c.cache key = some ⟨w, ts⟩) :
    (c.get key cfg t).1 = if c.ttlMs < t - ts then none else some w := by
  unfold DirectoryCache.get
  rw [resetIfConfigChanged_same c cfg h1]
  simp only [h2]
  split <;> simp_all

theorem get_snd_cache_expired (c : DirectoryCache V) (key : String)
    (cfg : ClawdbotConfig) (t : Nat) (w : V) (ts : Nat)
    (h1 : c.lastConfigRef = some cfg) (h2 : c.cache key = some ⟨w, ts⟩)
    (hexp : c.ttlMs < t - ts) :
    ((c.get key cfg t).2).cache key = none := by
  unfold DirectoryCache.get
  rw [resetIfConfigChanged_same c cfg h1]
  simp only [h2]
  simp [hexp]

/-- C5: a value set at time `T` is returned by any `get` before
`T + CACHE_TTL_MS`; any `get` after `T + CACHE_TTL_MS` reports it
absent and evicts it, and a subsequent directory lookup performs a
fresh fetch. -/
theorem directoryCache_ttl_roundtrip (c : DirectoryCache (List ChannelDirectoryEntry))
    (ch : ChannelId) (acc : Option String) (kind : ChannelDirectoryEntryKind)
    (v : List ChannelDirectoryEntry) (cfg : ClawdbotConfig) (T t : Nat)
    (httl : c.ttlMs = CACHE_TTL_MS) :
    (t < T + CACHE_TTL_MS →
      ((c.set (buildDirectoryCacheKey ch acc kind .cache) v cfg T).get
        (buildDirectoryCacheKey ch acc kind .cache) cfg t).1 = some v) ∧
    (T + CACHE_TTL_MS < t →
      ((c.set (buildDirectoryCacheKey ch acc kind .cache) v cfg T).get
        (buildDirectoryCacheKey ch acc kind .cache) cfg t).1 = none ∧
      (((c.set (buildDirectoryCacheKey ch acc kind .cache) v cfg T).get
        (buildDirectoryCacheKey ch acc kind .cache) cfg t).2).cache
        (buildDirectoryCacheKey ch acc kind .cache) = none) ∧
    (T + CACHE_TTL_MS < t → ∀ fetch : DirectorySource → List ChannelDirectoryEntry,
      (getDirectoryEntries fetch cfg ch acc kind false
        (c.set (buildDirectoryCacheKey ch acc kind .cache) v cfg T) t).cacheFetches = 1) := by
  have hL := set_lastConfigRef c (buildDirectoryCacheKey ch acc kind .cache) v cfg T
  have hC := set_cache_self c (buildDirectoryCacheKey ch acc kind .cache) v cfg T
  have hT := set_ttlMs c (buildDirectoryCacheKey ch acc kind .cache) v cfg T
  have hfst := get_fst_of_entry _ (buildDirectoryCacheKey ch acc kind .cache) cfg t
    v T hL hC
  rw [hT, httl] at hfst
  refine ⟨?_, ?_, ?_⟩
  · intro hlt
    rw [hfst, if_neg (by omega)]
  · intro hgt
    refine ⟨by rw [hfst, if_pos (by omega)], ?_⟩
    exact get_snd_cache_expired _ _ cfg t v T hL hC (by rw [hT, httl]; omega)
  · intro hgt fetch
    have hnone : ((c.set (buildDirectoryCacheKey ch acc kind .cache) v cfg T).get
        (buildDirectoryCacheKey ch acc kind .cache) cfg t).1 = none := by
      rw [hfst, if_pos (by omega)]
    simp only [getDirectoryEntries, hnone]
    simp

theorem directoryCache_ttl_roundtrip_witness :
    ((directoryCache.set (buildDirectoryCacheKey .discord none .group .cache)
        [entryGeneralOne] 7 100).get
      (buildDirectoryCacheKey .discord none .group .cache) 7 101).1 =
        some [entryGeneralOne] ∧
    ((directoryCache.set (buildDirectoryCacheKey .discord none .group .cache)
        [entryGeneralOne] 7 100).get
      (buildDirectoryCacheKey .discord none .group .cache) 7
        (100 + CACHE_TTL_MS + 1)).1 = none ∧
    (getDirectoryEntries fetchNothing 7 .discord none .group false
      (directoryCache.set (buildDirectoryCacheKey .discord none .group .cache)
        [entryGeneralOne] 7 100) (100 + CACHE_TTL_MS + 1)).cacheFetches = 1 :=
  ⟨(directoryCache_ttl_roundtrip directoryCache .discord none .group [entryGeneralOne]
      7 100 101 rfl).1 (by decide),
   ((directoryCache_ttl_roundtrip directoryCache .discord none .group [entryGeneralOne]
      7 100 (100 + CACHE_TTL_MS + 1) rfl).2.1 (by decide)).1,
   (directoryCache_ttl_roundtrip directoryCache .discord none .group [entryGeneralOne]
      7 100 (100 + CACHE_TTL_MS + 1) rfl).2.2 (by decide) fetchNothing⟩

theorem reset_cache_none (c : DirectoryCache V) (cfg : ClawdbotConfig)
    (hc : c.cache = fun _ => none) :
    (c.resetIfConfigChanged cfg).cache = fun _ => none := by
  unfold DirectoryCache.resetIfConfigChanged
  cases h : c.lastConfigRef
  · simp [hc]
  · split <;> simp [hc]

theorem reset_ttlMs (c : DirectoryCache V) (cfg : ClawdbotConfig) :
    (c.resetIfConfigChanged cfg).ttlMs = c.ttlMs := by
  unfold DirectoryCache.resetIfConfigChanged
  split
  · split <;> rfl
  · rfl

theorem get_empty (c : DirectoryCache V) (key : String) (cfg : ClawdbotConfig)
    (now : Nat) (hc : c.cache = fun _ => none) :
    c.get key cfg now = (none, c.resetIfConfigChanged cfg) := by
  unfold DirectoryCache.get
  simp [reset_cache_none c cfg hc]

theorem cacheKey_ne_liveKey (ch : ChannelId) (acc : Option String)
    (kind : ChannelDirectoryEntryKind) :
    buildDirectoryCacheKey ch acc kind .cache ≠ buildDirectoryCacheKey ch acc kind .live := by
  intro h
  have h2 := congrArg String.length h
  simp only [buildDirectoryCacheKey, String.length_append, dirSourceStr] at h2
  have hc5 : ("cache" : String).length = 5 := by decide
  have hl4 : ("live" : String).length = 4 := by decide
  rw [hc5, hl4] at h2
  omega

theorem set_cache_other (c : DirectoryCache V) (key key2 : String) (v : V)
    (cfg : ClawdbotConfig) (now : Nat) (hne : key2 ≠ key) :
    (c.set key v cfg now).cache key2 = (c.resetIfConfigChanged cfg).cache key2 := by
  unfold DirectoryCache.set
  simp [hne]

/-- C8 (amended): a lookup missing the cache fetches once from the
cache-source collaborator; when that fetch is non-empty (or live
escalation is off) the result is cached under the cache-source key,
but a zero-entry fetch with live escalation caches nothing under the
cache-source key: it performs exactly one live-variant query and
caches that result under the live-source key only. -/
theorem getDirectoryEntries_miss_caching
    (fetch : DirectorySource → List ChannelDirectoryEntry) (cfg : ClawdbotConfig)
    (ch : ChannelId) (acc : Option String) (kind : ChannelDirectoryEntryKind)
    (pl : Bool) (c : DirectoryCache (List ChannelDirectoryEntry)) (now : Nat)
    (hc : c.cache = fun _ => none) :
    (fetch .cache ≠ [] ∨ pl = false →
      getDirectoryEntries fetch cfg ch acc kind pl c now =
        ⟨fetch .cache, (c.resetIfConfigChanged cfg).set
          (buildDirectoryCacheKey ch acc kind .cache) (fetch .cache) cfg now, 1, 0⟩ ∧
      ((c.resetIfConfigChanged cfg).set (buildDirectoryCacheKey ch acc kind .cache)
          (fetch .cache) cfg now).cache (buildDirectoryCacheKey ch acc kind .cache) =
        some ⟨fetch .cache, now⟩) ∧
    (fetch .cache = [] → pl = true →
      getDirectoryEntries fetch cfg ch acc kind pl c now =
        ⟨fetch .live, (c.resetIfConfigChanged cfg).set
          (buildDirectoryCacheKey ch acc kind .live) (fetch .live) cfg now, 1, 1⟩ ∧
      ((c.resetIfConfigChanged cfg).set (buildDirectoryCacheKey ch acc kind .live)
          (fetch .live) cfg now).cache (buildDirectoryCacheKey ch acc kind .live) =
        some ⟨fetch .live, now⟩ ∧
      ((c.resetIfConfigChanged cfg).set (buildDirectoryCacheKey ch acc kind .live)
          (fetch .live) cfg now).cache (buildDirectoryCacheKey ch acc kind .cache) =
        none) := by
  have hget := get_empty c (buildDirectoryCacheKey ch acc kind .cache) cfg now hc
  constructor
  · intro h
    refine ⟨?_, set_cache_self _ _ _ _ _⟩
    simp only [getDirectoryEntries, hget]
    rw [if_pos]
    rcases h with h | h
    · exact Or.inl (by cases hf : fetch .cache with
        | nil => exact absurd hf h
        | cons a t => simp [hf])
    · exact Or.inr h
  · intro h hpl
    refine ⟨?_, set_cache_self _ _ _ _ _, ?_⟩
    · simp only [getDirectoryEntries, hget]
      rw [if_neg]
      simp [h, hpl]
    · rw [set_cache_other _ _ _ _ _ _ (cacheKey_ne_liveKey ch acc kind)]
      rw [reset_cache_none _ _ (reset_cache_none c cfg hc)]

theorem getDirectoryEntries_miss_caching_witness :
    directoryCache.cache = (fun _ => none) ∧
    (getDirectoryEntries fetchTwoGenerals 0 .discord none .group true directoryCache 5 =
      ⟨fetchTwoGenerals .cache, (directoryCache.resetIfConfigChanged 0).set
        (buildDirectoryCacheKey .discord none .group .cache) (fetchTwoGenerals .cache) 0 5,
        1, 0⟩ ∧
    ((directoryCache.resetIfConfigChanged 0).set
        (buildDirectoryCacheKey .discord none .group .cache) (fetchTwoGenerals .cache)
        0 5).cache (buildDirectoryCacheKey .discord none .group .cache) =
      some ⟨fetchTwoGenerals .cache, 5⟩) :=
  ⟨rfl, (getDirectoryEntries_miss_caching fetchTwoGenerals 0 .discord none .group true
    directoryCache 5 rfl).1 (Or.inl (by decide))⟩

theorem getDirectoryEntries_zero_entries_counterexample :
    (getDirectoryEntries fetchNothing 0 .discord none .group true directoryCache 0).cacheFetches
      = 1 ∧
    ((getDirectoryEntries fetchNothing 0 .discord none .group true
        directoryCache 0).cache).cache
      (buildDirectoryCacheKey .discord none .group .cache) = none :=
  ⟨by decide, by decide⟩

theorem resolve_uses_directory (np : NormalizeProvider)
    (fetch : DirectorySource → List ChannelDirectoryEntry) (cfg : ClawdbotConfig)
    (ch : ChannelId) (input : String) (acc : Option String)
    (pk : Option TargetResolveKind) (c : DirectoryCache (List ChannelDirectoryEntry))
    (now : Nat) (hraw : normalizeChannelTargetInput input ≠ "")
    (hid : looksLikeId ch ((np ch (normalizeChannelTargetInput input)).getD
      (normalizeChannelTargetInput input)) = false) :
    ∃ res, resolveMessagingTarget np fetch cfg ch input acc pk c now =
      ⟨res,
        (getDirectoryEntries fetch cfg ch acc
          (if detectTargetKind (normalizeChannelTargetInput input) pk =
              TargetResolveKind.user then .user else .group) true c now).cache,
        (getDirectoryEntries fetch cfg ch acc
          (if detectTargetKind (normalizeChannelTargetInput input) pk =
              TargetResolveKind.user then .user else .group) true c now).cacheFetches,
        (getDirectoryEntries fetch cfg ch acc
          (if detectTargetKind (normalizeChannelTargetInput input) pk =
              TargetResolveKind.user then .user else .group) true c now).liveFetches⟩ := by
  simp only [resolveMessagingTarget]
  rw [if_neg hraw, if_neg (by simp [hid])]
  cases hm : resolveMatch np ch
      (getDirectoryEntries fetch cfg ch acc
        (if detectTargetKind (normalizeChannelTargetInput input) pk =
            TargetResolveKind.user then .user else .group) true c now).entries
      (stripTargetPrefixes (normalizeChannelTargetInput input)) <;>
    exact ⟨_, rfl⟩

theorem getDirectoryEntries_hit (fetch : DirectorySource → List ChannelDirectoryEntry)
    (cfg : ClawdbotConfig) (ch : ChannelId) (acc : Option String)
    (kind : ChannelDirectoryEntryKind) (pl : Bool)
    (c : DirectoryCache (List ChannelDirectoryEntry)) (now : Nat)
    (w : List ChannelDirectoryEntry) (ts : Nat) (h1 : c.lastConfigRef = some cfg)
    (h2 : c.cache (buildDirectoryCacheKey ch acc kind .cache) = some ⟨w, ts⟩)
    (hfresh : ¬ c.ttlMs < now - ts) :
    getDirectoryEntries fetch cfg ch acc kind pl c now = ⟨w, c, 0, 0⟩ := by
  have hget : c.get (buildDirectoryCacheKey ch acc kind .cache) cfg now = (some w, c) := by
    unfold DirectoryCache.get
    rw [resetIfConfigChanged_same c cfg h1]
    simp only [h2]
    simp [hfresh]
  simp only [getDirectoryEntries, hget]

theorem get_config_changed (c : DirectoryCache V) (key : String)
    (cfg1 cfg2 : ClawdbotConfig) (now : Nat) (h1 : c.lastConfigRef = some cfg1)
    (hne : cfg1 ≠ cfg2) :
    c.get key cfg2 now =
      (none, { c with cache := fun _ => none, lastConfigRef := some cfg2 }) := by
  unfold DirectoryCache.get DirectoryCache.resetIfConfigChanged
  simp only [h1]
  simp [hne]

theorem set_config_changed (c : DirectoryCache V) (key : String) (v : V)
    (cfg1 cfg2 : ClawdbotConfig) (now : Nat) (h1 : c.lastConfigRef = some cfg1)
    (hne : cfg1 ≠ cfg2) :
    (c.set key v cfg2 now).cache =
      fun k => if k = key then some ⟨v, now⟩ else none := by
  funext k
  unfold DirectoryCache.set DirectoryCache.resetIfConfigChanged
  simp only [h1]
  simp [hne]

theorem getDirectoryEntries_miss_cacheFetches
    (fetch : DirectorySource → List ChannelDirectoryEntry) (cfg : ClawdbotConfig)
    (ch : ChannelId) (acc : Option String) (kind : ChannelDirectoryEntryKind)
    (pl : Bool) (c : DirectoryCache (List ChannelDirectoryEntry)) (now : Nat)
    (h : (c.get (buildDirectoryCacheKey ch acc kind .cache) cfg now).1 = none) :
    (getDirectoryEntries fetch cfg ch acc kind pl c now).cacheFetches = 1 := by
  simp only [getDirectoryEntries, h]
  split <;> rfl

/-- C6 (amended): a `get` or `set` under a configuration object other
than the one last seen clears the whole cache first; resolving twice
with the same channel, account and kind under the same configuration
issues exactly one underlying directory fetch provided the first fetch
returns entries and the second resolve is within the TTL, while
swapping in a different configuration object before the second resolve
forces a second fetch. -/
theorem cache_config_identity_and_single_fetch (np : NormalizeProvider)
    (fetch : DirectorySource → List ChannelDirectoryEntry)
    (cfg cfg2 : ClawdbotConfig) (ch : ChannelId) (input : String)
    (acc : Option String) (pk : Option TargetResolveKind) (now now2 : Nat)
    (hraw : normalizeChannelTargetInput input ≠ "")
    (hid : looksLikeId ch ((np ch (normalizeChannelTargetInput input)).getD
      (normalizeChannelTargetInput input)) = false)
    (hfetch : fetch .cache ≠ []) (httl : now2 - now ≤ CACHE_TTL_MS)
    (hcfg : cfg ≠ cfg2) :
    (∀ (c : DirectoryCache (List ChannelDirectoryEntry)) (key : String) (n : Nat),
      c.lastConfigRef = some cfg →
      c.get key cfg2 n =
        (none, { c with cache := fun _ => none, lastConfigRef := some cfg2 })) ∧
    (∀ (c : DirectoryCache (List ChannelDirectoryEntry)) (key : String)
        (v : List ChannelDirectoryEntry) (n : Nat),
      c.lastConfigRef = some cfg →
      (c.set key v cfg2 n).cache =
        fun k => if k = key then some ⟨v, n⟩ else none) ∧
    (resolveMessagingTarget np fetch cfg ch input acc pk directoryCache now).cacheFetches +
      (resolveMessagingTarget np fetch cfg ch input acc pk directoryCache now).liveFetches
      = 1 ∧
    (resolveMessagingTarget np fetch cfg ch input acc pk
      (resolveMessagingTarget np fetch cfg ch input acc pk directoryCache now).cache
      now2).cacheFetches = 0 ∧
    (resolveMessagingTarget np fetch cfg ch input acc pk
      (resolveMessagingTarget np fetch cfg ch input acc pk directoryCache now).cache
      now2).liveFetches = 0 ∧
    (resolveMessagingTarget np fetch cfg2 ch input acc pk
      (resolveMessagingTarget np fetch cfg ch input acc pk directoryCache now).cache
      now2).cacheFetches = 1 := by
  obtain ⟨res1, h1⟩ := resolve_uses_directory np fetch cfg ch input acc pk
    directoryCache now hraw hid
  have hmiss := (getDirectoryEntries_miss_caching fetch cfg ch acc
    (if detectTargetKind (normalizeChannelTargetInput input) pk =
        TargetResolveKind.user then .user else .group) true directoryCache now rfl).1
    (Or.inl hfetch)
  rw [hmiss.1] at h1
  have hLast := set_lastConfigRef (directoryCache.resetIfConfigChanged cfg)
    (buildDirectoryCacheKey ch acc
      (if detectTargetKind (normalizeChannelTargetInput input) pk =
          TargetResolveKind.user then .user else .group) .cache) (fetch .cache) cfg now
  have hSelf := set_cache_self (directoryCache.resetIfConfigChanged cfg)
    (buildDirectoryCacheKey ch acc
      (if detectTargetKind (normalizeChannelTargetInput input) pk =
          TargetResolveKind.user then .user else .group) .cache) (fetch .cache) cfg now
  have hTtl : ((directoryCache.resetIfConfigChanged cfg).set
      (buildDirectoryCacheKey ch acc
        (if detectTargetKind (normalizeChannelTargetInput input) pk =
            TargetResolveKind.user then .user else .group) .cache)
      (fetch .cache) cfg now).ttlMs = CACHE_TTL_MS := by
    rw [set_ttlMs, reset_ttlMs]; rfl
  obtain ⟨res2, h2⟩ := resolve_uses_directory np fetch cfg ch input acc pk
    ((directoryCache.resetIfConfigChanged cfg).set
      (buildDirectoryCacheKey ch acc
        (if detectTargetKind (normalizeChannelTargetInput input) pk =
            TargetResolveKind.user then .user else .group) .cache)
      (fetch .cache) cfg now) now2 hraw hid
  rw [getDirectoryEntries_hit fetch cfg ch acc _ true _ now2 (fetch .cache) now
    hLast hSelf (by rw [hTtl]; omega)] at h2
  obtain ⟨res3, h3⟩ := resolve_uses_directory np fetch cfg2 ch input acc pk
    ((directoryCache.resetIfConfigChanged cfg).set
      (buildDirectoryCacheKey ch acc
        (if detectTargetKind (normalizeChannelTargetInput input) pk =
            TargetResolveKind.user then .user else .group) .cache)
      (fetch .cache) cfg now) now2 hraw hid
  refine ⟨fun c key n hc => get_config_changed c key cfg cfg2 n hc hcfg,
    fun c key v n hc => set_config_changed c key v cfg cfg2 n hc hcfg, ?_, ?_, ?_, ?_⟩
  · simp [h1]
  · simp [h1, h2]
  · simp [h1, h2]
  · simp only [h1]
    simp only [h3]
    exact getDirectoryEntries_miss_cacheFetches fetch cfg2 ch acc _ true _ now2
      (by simp [get_config_changed _ _ cfg cfg2 now2 hLast hcfg])

theorem cache_config_identity_and_single_fetch_witness :
    (resolveMessagingTarget noNormalizer fetchTwoGenerals 0 .discord "gen" none none
        directoryCache 0).cacheFetches +
      (resolveMessagingTarget noNormalizer fetchTwoGenerals 0 .discord "gen" none none
        directoryCache 0).liveFetches = 1 ∧
    (resolveMessagingTarget noNormalizer fetchTwoGenerals 0 .discord "gen" none none
      (resolveMessagingTarget noNormalizer fetchTwoGenerals 0 .discord "gen" none none
        directoryCache 0).cache 5).cacheFetches = 0 ∧
    (resolveMessagingTarget noNormalizer fetchTwoGenerals 1 .discord "gen" none none
      (resolveMessagingTarget noNormalizer fetchTwoGenerals 0 .discord "gen" none none
        directoryCache 0).cache 5).cacheFetches = 1 :=
  ⟨(cache_config_identity_and_single_fetch noNormalizer fetchTwoGenerals 0 1 .discord
      "gen" none none 0 5 (by decide) (by decide) (by decide) (by decide)
      (by decide)).2.2.1,
   (cache_config_identity_and_single_fetch noNormalizer fetchTwoGenerals 0 1 .discord
      "gen" none none 0 5 (by decide) (by decide) (by decide) (by decide)
      (by decide)).2.2.2.1,
   (cache_config_identity_and_single_fetch noNormalizer fetchTwoGenerals 0 1 .discord
      "gen" none none 0 5 (by decide) (by decide) (by decide) (by decide)
      (by decide)).2.2.2.2.2⟩

theorem cache_single_fetch_counterexample :
    (resolveMessagingTarget noNormalizer fetchNothing 0 .discord "gen" none none
      directoryCache 0).cacheFetches = 1 ∧
    (resolveMessagingTarget noNormalizer fetchNothing 0 .discord "gen" none none
      (resolveMessagingTarget noNormalizer fetchNothing 0 .discord "gen" none none
        directoryCache 0).cache 0).cacheFetches = 1 :=
  ⟨by decide, by decide⟩

theorem foldl_push_eq_map (l : List α) (f : α → β) (acc : List β) :
    l.foldl (fun a x => a ++ [f x]) acc = acc ++ l.map f := by
  induction l generalizing acc with
  | nil => simp
  | cons x xs ih => simp [ih]

theorem foldl_append_eq_flatMap (l : List α) (g : α → List β) (acc : List β) :
    l.foldl (fun a x => a ++ g x) acc = acc ++ l.flatMap g := by
  induction l generalizing acc with
  | nil => simp
  | cons x xs ih => simp [ih]

theorem nested_foldl_eq_flatMap (channels : List ChannelId) (targets : List String)
    (pair : ChannelId → String → BroadcastOutcome ρ) (acc : List (BroadcastOutcome ρ)) :
    channels.foldl
      (fun a ch => targets.foldl (fun a2 t => a2 ++ [pair ch t]) a) acc =
      acc ++ channels.flatMap (fun ch => targets.map (pair ch)) := by
  simp only [foldl_push_eq_map]
  exact foldl_append_eq_flatMap channels _ acc

theorem flatMap_map_length (channels : List ChannelId) (targets : List String)
    (pair : ChannelId → String → BroadcastOutcome ρ) :
    (channels.flatMap (fun ch => targets.map (pair ch))).length =
      channels.length * targets.length := by
  induction channels with
  | nil => simp
  | cons ch chs ih => simp [ih, Nat.succ_mul, Nat.add_comm]

/-- C2: a broadcast over target channels `C` and raw targets `T` (both
non-empty) succeeds with exactly `|C| * |T|` outcomes, enumerated
channel-major: all targets of the first channel in order, then all
targets of the second channel, and so on. -/
theorem broadcast_cross_product_order (resolveSel : String → Except String ChannelId)
    (resolveT : ChannelId → String → Except String String)
    (sendRec : ChannelId → String → Except String (Option ρ))
    (C : List ChannelId) (T : List String) (d : Bool)
    (hC : C ≠ []) (hT : T ≠ []) :
    ∃ r, handleBroadcastAction resolveSel resolveT sendRec ⟨true, some T, none, C, d⟩ =
        .ok r ∧
      r.results = C.flatMap (fun ch => T.map (broadcastPair resolveT sendRec ch)) ∧
      r.results.length = C.length * T.length := by
  refine ⟨⟨C.headD .discord, if d then .dryRun else .core,
    C.flatMap (fun ch => T.map (broadcastPair resolveT sendRec ch)), d⟩, ?_, rfl,
    flatMap_map_length C T _⟩
  unfold handleBroadcastAction broadcastTargetChannels
  dsimp only
  rw [if_neg (show ¬ (true : Bool) = false by simp)]
  rw [if_neg (show ¬ T.length = 0 by simpa using hT)]
  rw [if_neg (show ¬ C.length = 0 by simpa using hC)]
  rw [nested_foldl_eq_flatMap]
  simp

theorem broadcast_cross_product_order_witness :
    ∃ r, handleBroadcastAction (fun h => .error ("no channel " ++ h))
        (fun _ t => .ok t) (fun _ _ => (.ok none : Except String (Option Nat)))
        ⟨true, some ["a", "b"], none, [ChannelId.discord, ChannelId.slack], false⟩ =
        .ok r ∧
      r.results = [ChannelId.discord, ChannelId.slack].flatMap
        (fun ch => ["a", "b"].map
          (broadcastPair (fun _ t => .ok t)
            (fun _ _ => (.ok none : Except String (Option Nat))) ch)) ∧
      r.results.length = [ChannelId.discord, ChannelId.slack].length * ["a", "b"].length :=
  broadcast_cross_product_order (fun h => .error ("no channel " ++ h))
    (fun _ t => .ok t) (fun _ _ => (.ok none : Except String (Option Nat)))
    [ChannelId.discord, ChannelId.slack] ["a", "b"] false (by decide) (by decide)

/-- C3 (amended): every per-pair error — from resolution or from the
recursive send — is caught and recorded as an `ok := false` outcome
with a string message; the broadcast call itself raises only for its
own preconditions (broadcast disabled, missing or empty target list,
no configured channels) or for a failure to resolve an explicit
channel hint. -/
theorem broadcast_failure_isolation (resolveSel : String → Except String ChannelId)
    (resolveT : ChannelId → String → Except String String)
    (sendRec : ChannelId → String → Except String (Option ρ)) (inp : BroadcastInput) :
    (∀ e, handleBroadcastAction resolveSel resolveT sendRec inp = .error e →
      inp.broadcastEnabled = false ∨ inp.targets = none ∨ inp.targets = some [] ∨
      inp.configured = [] ∨
      ∃ h, inp.channelHint = some h ∧ strLower (strTrim h) ≠ "all" ∧
        resolveSel h = .error e) ∧
    (∀ ch t e, resolveT ch t = .error e →
      broadcastPair resolveT sendRec ch t = ⟨ch, t, false, some e, none⟩) ∧
    (∀ ch t dest e, resolveT ch t = .ok dest → sendRec ch dest = .error e →
      broadcastPair resolveT sendRec ch t = ⟨ch, t, false, some e, none⟩) := by
  refine ⟨?_, ?_, ?_⟩
  · intro e h
    unfold handleBroadcastAction at h
    split at h
    · exact Or.inl (by assumption)
    · split at h
      · exact Or.inr (Or.inl (by assumption))
      · rename_i ts hts
        split at h
        · rename_i hlen
          refine Or.inr (Or.inr (Or.inl ?_))
          rw [hts, List.length_eq_zero.mp hlen]
        · split at h
          · rename_i hconf
            exact Or.inr (Or.inr (Or.inr (Or.inl (List.length_eq_zero.mp hconf))))
          · split at h
            · rename_i e2 hbc
              refine Or.inr (Or.inr (Or.inr (Or.inr ?_)))
              unfold broadcastTargetChannels at hbc
              split at hbc
              · rename_i hint heq
                split at hbc
                · rename_i hall
                  split at hbc
                  · rename_i e3 hrs
                    cases hbc
                    cases h
                    exact ⟨hint, heq, hall, hrs⟩
                  · cases hbc
                · cases hbc
              · cases hbc
            · cases h
  · intro ch t e hr
    unfold broadcastPair
    rw [hr]
  · intro ch t dest e hr hs
    unfold broadcastPair
    simp only [hr, hs]

theorem broadcast_raises_on_channel_hint_counterexample :
    handleBroadcastAction (fun h => .error ("No channel matched hint " ++ h))
      (fun _ t => .ok t) (fun _ _ => (.ok none : Except String (Option Nat)))
      ⟨true, some ["a"], some "bogus", [ChannelId.discord], false⟩ =
      .error "No channel matched hint bogus" ∧
    (true : Bool) ≠ false ∧ (["a"] : List String) ≠ [] ∧
    ([ChannelId.discord] : List ChannelId) ≠ [] :=
  ⟨rfl, by decide, by decide, by decide⟩

theorem broadcast_failure_isolation_witness :
    ((fun (_ : ChannelId) (_ : String) =>
        (.error "boom" : Except String String)) ChannelId.discord "a" = .error "boom") ∧
    broadcastPair (fun _ _ => (.error "boom" : Except String String))
      (fun _ _ => (.ok none : Except String (Option Nat))) ChannelId.discord "a" =
      ⟨ChannelId.discord, "a", false, some "boom", none⟩ :=
  ⟨rfl, (broadcast_failure_isolation (fun h => .error ("no channel " ++ h))
    (fun _ _ => (.error "boom" : Except String String))
    (fun _ _ => (.ok none : Except String (Option Nat)))
    ⟨true, some ["a"], none, [ChannelId.discord], false⟩).2.1
    ChannelId.discord "a" "boom" rfl⟩

/-- C10: a successful broadcast pair records the resolved canonical
destination in its `to` field, while a failed pair (resolution or send)
records the raw target the caller supplied; every outcome in a
successful broadcast payload is such a pair outcome. -/
theorem broadcast_destination_provenance
    (resolveT : ChannelId → String → Except String String)
    (sendRec : ChannelId → String → Except String (Option ρ)) :
    (∀ ch t dest r, resolveT ch t = .ok dest → sendRec ch dest = .ok r →
      broadcastPair resolveT sendRec ch t = ⟨ch, dest, true, none, r⟩) ∧
    (∀ ch t e, resolveT ch t = .error e →
      (broadcastPair resolveT sendRec ch t).to = t ∧
      (broadcastPair resolveT sendRec ch t).ok = false) ∧
    (∀ ch t dest e, resolveT ch t = .ok dest → sendRec ch dest = .error e →
      (broadcastPair resolveT sendRec ch t).to = t ∧
      (broadcastPair resolveT sendRec ch t).ok = false) ∧
    (∀ (resolveSel : String → Except String ChannelId) (inp : BroadcastInput)
        (res : BroadcastResult ρ),
      handleBroadcastAction resolveSel resolveT sendRec inp = .ok res →
      ∀ o ∈ res.results, ∃ ch t, o = broadcastPair resolveT sendRec ch t) := by
  refine ⟨?_, ?_, ?_, ?_⟩
  · intro ch t dest r hr hs
    unfold broadcastPair
    simp only [hr, hs]
  · intro ch t e hr
    unfold broadcastPair
    simp only [hr]
    exact ⟨trivial, trivial⟩
  · intro ch t dest e hr hs
    unfold broadcastPair
    simp only [hr, hs]
    exact ⟨trivial, trivial⟩
  · intro resolveSel inp res h o ho
    unfold handleBroadcastAction at h
    split at h
    · cases h
    · split at h
      · cases h
      · split at h
        · cases h
        · split at h
          · cases h
          · split at h
            · cases h
            · cases h
              simp only [nested_foldl_eq_flatMap, List.nil_append, List.mem_flatMap,
                List.mem_map] at ho
              obtain ⟨ch, _, t, _, ho3⟩ := ho
              exact ⟨ch, t, ho3.symm⟩

theorem broadcast_destination_provenance_witness :
    ((fun (_ : ChannelId) (_ : String) =>
        (.ok "canonical" : Except String String)) ChannelId.discord "raw" =
      .ok "canonical") ∧
    broadcastPair (fun _ _ => (.ok "canonical" : Except String String))
      (fun _ _ => (.ok (some 3) : Except String (Option Nat))) ChannelId.discord "raw" =
      ⟨ChannelId.discord, "canonical", true, none, some 3⟩ :=
  ⟨rfl, (broadcast_destination_provenance
    (fun _ _ => (.ok "canonical" : Except String String))
    (fun _ _ => (.ok (some 3) : Except String (Option Nat)))).1
    ChannelId.discord "raw" "canonical" (some 3) rfl rfl⟩

/-- C7 (amended): every supported action has exactly one entry in the
Action Target Spec; `actionRequiresTarget` holds iff that entry is not
"none"; and for every action requiring a target, the runner's
validation fails with "Action <a> requires a target." whenever neither
`to` nor `channelId` is present as a non-empty string after target
mapping — provided the earlier `buttons` validation did not already
fail with its own error. -/
theorem action_target_spec_total_and_enforced :
    (∀ a : ChannelMessageActionName,
      (MESSAGE_ACTION_TARGET_MODE.filter (fun p => p.1 == a)).length = 1) ∧
    (∀ a : ChannelMessageActionName, actionRequiresTarget a = true ↔
      MESSAGE_ACTION_TARGET_MODE.lookup a ≠ some MessageActionTargetMode.noTarget) ∧
    (∀ (jsonOk : String → Bool) (a : ChannelMessageActionName) (p p1 : ActionParams),
      actionRequiresTarget a = true →
      parseButtonsParam jsonOk p = .ok p1 →
      hasTargetParam (applyTargetToParams a p1) = false →
      runMessageActionChecks jsonOk a p =
        .error ("Action " ++ actionNameStr a ++ " requires a target.")) := by
  refine ⟨?_, ?_, ?_⟩
  · intro a
    cases a <;> decide
  · intro a
    cases a <;> decide
  · intro jsonOk a p p1 hreq hbtn hhas
    have hnb : ¬ a = ChannelMessageActionName.broadcast := by
      intro h
      subst h
      revert hreq
      decide
    unfold runMessageActionChecks
    simp only [hbtn]
    rw [if_neg hnb]
    rw [if_pos ⟨hreq, hhas⟩]

theorem buttons_error_preempts_target_error_counterexample :
    runMessageActionChecks (fun _ => false) .react
      ⟨some (.str "oops"), none, none, none⟩ = .error "--buttons must be valid JSON" ∧
    actionRequiresTarget .react = true ∧
    hasTargetParam ⟨some (.str "oops"), none, none, none⟩ = false ∧
    ("--buttons must be valid JSON" : String) ≠ "Action react requires a target." :=
  ⟨rfl, by decide, by decide, by decide⟩

theorem action_target_spec_total_and_enforced_witness :
    actionRequiresTarget .react = true ∧
    parseButtonsParam (fun _ => true) ⟨none, none, none, none⟩ =
      .ok ⟨none, none, none, none⟩ ∧
    hasTargetParam (applyTargetToParams .react ⟨none, none, none, none⟩) = false ∧
    runMessageActionChecks (fun _ => true) .react ⟨none, none, none, none⟩ =
      .error ("Action " ++ actionNameStr .react ++ " requires a target.") :=
  ⟨by decide, rfl, by decide,
    action_target_spec_total_and_enforced.2.2 (fun _ => true) .react
      ⟨none, none, none, none⟩ ⟨none, none, none, none⟩ (by decide) rfl
      (by decide)⟩

/-- C9: send validation is independent of the dry-run flag — a
validation failure yields the identical error for dry-run and live
requests with no dispatch performed, and a send with a valid target
but no message and no media hint fails with "message required" in
either mode; a dry-run send never invokes the dispatch collaborator,
and a dry-run generic plugin action synthesizes a success without
invoking the plugin dispatcher. -/
theorem dryrun_validation_parity_and_skip (prd : String → ReplyDirectives)
    (deco : Option (String → String)) (dispatch : SendRequest → Except String ρ)
    (dryResult : ρ) :
    (∀ p e, validateSendAction prd deco p = .error e →
      ∀ d : Bool, handleSendAction prd deco dispatch dryResult p d = (.error e, 0)) ∧
    (∀ p : SendParams, p.message = none → p.media = none →
      (∃ s, p.to = some (.str s) ∧ strTrim s ≠ "") →
      validateSendAction prd deco p = .error "message required") ∧
    (∀ p : SendParams, (handleSendAction prd deco dispatch dryResult p true).2 = 0) ∧
    (∀ (dispatcher : Unit → Option σ) (ch : ChannelId) (a : ChannelMessageActionName),
      handlePluginAction dispatcher ch a true =
        (.ok ⟨.dryRun, .synthesized ch a⟩, 0)) := by
  refine ⟨?_, ?_, ?_, ?_⟩
  · intro p e h d
    unfold handleSendAction
    simp only [h]
  · intro p hm hmed hto
    obtain ⟨s, hs, hne⟩ := hto
    unfold validateSendAction
    simp only [readStringParam, hs, hm, hmed]
    rw [if_neg (fun hc => hne hc.1)]
    simp
  · intro p
    unfold handleSendAction
    cases hv : validateSendAction prd deco p with
    | error e => simp [hv]
    | ok req => simp [hv, executeSendAction]
  · intro dispatcher ch a
    unfold handlePluginAction
    simp

theorem dryrun_validation_parity_and_skip_witness :
    (⟨some (.str "C123"), none, none⟩ : SendParams).message = none ∧
    validateSendAction (fun s => ⟨s, none, [], none⟩) none
      ⟨some (.str "C123"), none, none⟩ = .error "message required" ∧
    (handleSendAction (fun s => ⟨s, none, [], none⟩) none
      (fun _ => (.ok 1 : Except String Nat)) 0 ⟨some (.str "C123"), none, none⟩
      true).2 = 0 ∧
    handlePluginAction (fun _ => (none : Option Nat)) ChannelId.discord .react true =
      (.ok ⟨.dryRun, .synthesized ChannelId.discord .react⟩, 0) :=
  ⟨rfl,
   (@dryrun_validation_parity_and_skip Nat Nat (fun s => ⟨s, none, [], none⟩) none
      (fun _ => .ok 1) 0).2.1
     ⟨some (.str "C123"), none, none⟩ rfl rfl ⟨"C123", rfl, by decide⟩,
   (@dryrun_validation_parity_and_skip Nat Nat (fun s => ⟨s, none, [], none⟩) none
      (fun _ => .ok 1) 0).2.2.1
     ⟨some (.str "C123"), none, none⟩,
   (@dryrun_validation_parity_and_skip Nat Nat (fun s => ⟨s, none, [], none⟩) none
      (fun _ => .ok 1) 0).2.2.2
     (fun _ => (none : Option Nat)) ChannelId.discord .react⟩
